import Mathlib

set_option maxRecDepth 100000

/-!
Shallow embedding of the retry-governed completion/tool-calling core of the
kubernetes-assistant-go repository.

Embedded source functions:

* cmd/cli/completion.go : `gptCompletion`, `getNonChatModels`, the retry wiring
  and the two prompt literals;
* the completion-client file : `openaiGptCompletion`, `openaiGptChatCompletion`
  (with its conversation loop), `trimTicks`, `fnCallAuto` / `fnCallNone`;
* cmd/cli/functions.go : `findSchemaNames`, `getSchema`, `schemaNames.Run`,
  `schema.Run`, `funcCall`;
* the schema-fetch file : `fetchResourceNames`, `fetchSchemaForResource`.

Modelling decisions, all stated where they are used:

* External collaborators (the OpenAI provider endpoints and the Kubernetes
  OpenAPI schema source reached through fetchK8sSchema) perform network or
  subprocess I/O; they are modelled as parameters of an `Env` record, scripted
  by the index of the call.
* The go-retry library (github.com/sethvargo/go-retry) is embedded as
  `retryDo`: `retry.Do` with `retry.WithMaxRetries(max, backoff)` runs the
  callback once and then up to `max` further times, retrying exactly when the
  callback wrapped the error as retryable, and returning the unwrapped last
  error when the budget is exhausted.  Backoff sleeping has no observable
  effect on any claim and is not modelled.
* Go `float32` temperatures are carried as `Rat` values passed through
  unchanged; no claim depends on float rounding.
* A Go runtime panic (indexing an empty slice) is the `crash` outcome; the
  unbounded conversation loop is made total by a fuel parameter, with the
  `timeout` outcome standing for running longer than the fuel allows.
* Go `strings.ReplaceAll` and `strings.Contains` are modelled on character
  lists with Go's leftmost, non-overlapping scan; `strings.ToLower` is
  modelled with `Char.toLower` (identical on the ASCII data involved).
* The fragment of Go `encoding/json` exercised by the tool-call arguments is
  modelled by `parseFlatJsonObject`: flat objects with string keys and string
  values, unknown fields ignored, a missing field leaving the struct field at
  its zero value `""`, malformed input yielding an unmarshalling error.
-/

deriving instance DecidableEq for Except

/-- Go error values as this core observes them: either a provider request
error bearing an HTTP status code (openai.RequestError, the case recognised by
errors.As in gptCompletion) or any other error with its message. -/
inductive GoError where
  | requestError (httpStatusCode : Nat) (message : String)
  | other (message : String)
deriving DecidableEq

/-- Result of running a piece of the Go code: a returned value, a returned
error, a runtime panic, or exhaustion of the embedding's fuel (standing for a
run longer than the fuel allows). -/
inductive GoOutcome (α : Type) where
  | ok (a : α)
  | err (e : GoError)
  | crash (message : String)
  | timeout
deriving DecidableEq

/-- JSON values produced by Go encoding/json unmarshalling into
map[string]interface{}, restricted to the shapes the schema collaborator
feeds this core: strings and string-keyed objects.  An association list
stands for a Go map together with its iteration order. -/
inductive JsonValue where
  | str : String → JsonValue
  | obj : List (String × JsonValue) → JsonValue

/-- Minimal JSON string escaping used when serialising a schema object. -/
def jsonEscapeChar (c : Char) : String :=
  if c = '"' then "\\\"" else if c = '\\' then "\\\\" else String.mk [c]

/-- Quote a string as a JSON string literal. -/
def jsonQuote (s : String) : String :=
  "\"" ++ String.join (s.data.map jsonEscapeChar) ++ "\""

mutual
/-- Serialisation of a `JsonValue`, modelling json.Marshal of the schema
object returned by `fetchSchemaForResource` (fields in association-list
order). -/
def serializeJson : JsonValue → String
  | .str s => jsonQuote s
  | .obj fs => "\x7b" ++ serializeJsonFields fs ++ "\x7d"

/-- Serialisation of the field list of a JSON object. -/
def serializeJsonFields : List (String × JsonValue) → String
  | [] => ""
  | (k, v) :: rest =>
    jsonQuote k ++ ":" ++ serializeJson v ++
      (if rest.isEmpty then "" else ",") ++ serializeJsonFields rest
end

/-- Whitespace skipping of the JSON scanner. -/
def skipWs : List Char → List Char
  | [] => []
  | c :: rest =>
    if c = ' ' ∨ c = '\t' ∨ c = '\n' ∨ c = '\r' then skipWs rest else c :: rest

/-- Scan a JSON string body (the opening quote already consumed), returning
the decoded content and the remaining input. -/
def parseJsonStringBody : List Char → List Char → Option (String × List Char)
  | [], _ => none
  | '"' :: rest, acc => some (String.mk acc.reverse, rest)
  | '\\' :: '"' :: rest, acc => parseJsonStringBody rest ('"' :: acc)
  | '\\' :: '\\' :: rest, acc => parseJsonStringBody rest ('\\' :: acc)
  | '\\' :: 'n' :: rest, acc => parseJsonStringBody rest ('\n' :: acc)
  | '\\' :: 't' :: rest, acc => parseJsonStringBody rest ('\t' :: acc)
  | '\\' :: 'r' :: rest, acc => parseJsonStringBody rest ('\r' :: acc)
  | '\\' :: '/' :: rest, acc => parseJsonStringBody rest ('/' :: acc)
  | '\\' :: _ :: _, _ => none
  | '\\' :: [], _ => none
  | c :: rest, acc => parseJsonStringBody rest (c :: acc)

/-- Parse the members of a flat JSON object after the opening brace, up to and
including the closing brace.  The fuel is at least the input length, and every
member consumes at least one character, so it never runs out on input this
grammar accepts. -/
def parseJsonMembers : Nat → List Char → Option (List (String × String) × List Char)
  | 0, _ => none
  | fuel + 1, s =>
    match skipWs s with
    | '"' :: rest =>
      match parseJsonStringBody rest [] with
      | none => none
      | some (key, rest1) =>
        match skipWs rest1 with
        | ':' :: rest2 =>
          match skipWs rest2 with
          | '"' :: rest3 =>
            match parseJsonStringBody rest3 [] with
            | none => none
            | some (value, rest4) =>
              match skipWs rest4 with
              | ',' :: rest5 =>
                match parseJsonMembers fuel rest5 with
                | some (fields, rest6) => some ((key, value) :: fields, rest6)
                | none => none
              | '\x7d' :: rest5 => some ([(key, value)], rest5)
              | _ => none
          | _ => none
        | _ => none
    | _ => none

/-- Parse a complete flat JSON object of string fields, requiring only
whitespace after it, as json.Unmarshal does for a complete value. -/
def parseFlatJsonObject (s : String) : Option (List (String × String)) :=
  match skipWs s.data with
  | '\x7b' :: rest =>
    match skipWs rest with
    | '\x7d' :: rest1 => if (skipWs rest1).isEmpty then some [] else none
    | _ =>
      match parseJsonMembers (rest.length + 1) rest with
      | some (fields, rest1) => if (skipWs rest1).isEmpty then some fields else none
      | none => none
  | _ => none

/-- Resolution of a parsed JSON object against one struct field tag, the way
encoding/json binds object keys to struct fields: keys are matched exactly or
case-insensitively, keys bound to no field are ignored, later duplicate keys
overwrite earlier ones, and an absent field keeps the zero value. -/
def jsonFieldLookup (fields : List (String × String)) (tag : String) : String :=
  fields.foldl (fun acc kv => if kv.1 = tag ∨ kv.1.toLower = tag.toLower then kv.2 else acc) ""

/-- Parameter description inside a jsonschema.Definition. -/
structure JsonSchemaProperty where
  name : String
  type : String
  description : String
deriving DecidableEq

/-- The jsonschema.Definition shape used by both declared tools. -/
structure JsonSchemaDefinition where
  type : String
  properties : List JsonSchemaProperty
  required : List String
deriving DecidableEq

/-- openai.FunctionDefinition as declared in cmd/cli/functions.go. -/
structure FunctionDefinition where
  name : String
  description : String
  parameters : JsonSchemaDefinition
deriving DecidableEq

/-- The findSchemaNames tool declaration from cmd/cli/functions.go. -/
def findSchemaNames : FunctionDefinition :=
  { name := "findSchemaNames"
    description := "Get the list of possible fully-namespaced names for a specific Kubernetes resource. E.g. given `Container` return `io.k8s.api.core.v1.Container`. Given `EnvVarSource` return `io.k8s.api.core.v1.EnvVarSource`"
    parameters :=
      { type := "object"
        properties := [{ name := "resourceName", type := "string",
                         description := "The name of a Kubernetes resource or field." }]
        required := ["resourceName"] } }

/-- The getSchema tool declaration from cmd/cli/functions.go. -/
def getSchema : FunctionDefinition :=
  { name := "getSchema"
    description := "Get the OpenAPI schema for a Kubernetes resource"
    parameters :=
      { type := "object"
        properties := [{ name := "resourceType", type := "string",
                         description := "The type of the Kubernetes resource or object (e.g. subresource). Must be fully namespaced, as returned by findSchemaNames" }]
        required := ["resourceType"] } }

/-- openai.FunctionCall: the tool-call request a provider response carries. -/
structure FunctionCall where
  name : String
  arguments : String
deriving DecidableEq

/-- Argument struct of the findSchemaNames tool (json tag resourceName). -/
structure schemaNames where
  resourceName : String
deriving DecidableEq

/-- Argument struct of the getSchema tool (json tag resourceType). -/
structure schema where
  resourceType : String
deriving DecidableEq

/-- The functionCallType string type from the completion-client file. -/
abbrev functionCallType := String

/-- Tool-invocation mode sent when the k8s API flag is on. -/
def fnCallAuto : functionCallType := "auto"

/-- Tool-invocation mode sent when the k8s API flag is off. -/
def fnCallNone : functionCallType := "none"

/-- openai.ChatMessageRoleUser. -/
def chatMessageRoleUser : String := "user"

/-- openai.ChatCompletionMessage, with the fields this core reads or writes. -/
structure ChatMessage where
  role : String
  content : String
  functionCall : Option FunctionCall
deriving DecidableEq

/-- One choice of an openai.ChatCompletionResponse. -/
structure ChatChoice where
  message : ChatMessage
deriving DecidableEq

/-- openai.ChatCompletionResponse, with the fields this core reads. -/
structure ChatCompletionResponse where
  choices : List ChatChoice
deriving DecidableEq

/-- openai.ChatCompletionRequest as built by openaiGptChatCompletion. -/
structure ChatCompletionRequest where
  model : String
  messages : List ChatMessage
  n : Nat
  temperature : Rat
  functions : List FunctionDefinition
  functionCall : functionCallType
deriving DecidableEq

/-- openai.CompletionRequest as built by openaiGptCompletion. -/
structure CompletionRequest where
  prompt : List String
  echo : Bool
  n : Nat
  temperature : Rat
deriving DecidableEq

/-- One choice of an openai.CompletionResponse. -/
structure CompletionChoice where
  text : String
deriving DecidableEq

/-- openai.CompletionResponse, with the fields this core reads. -/
structure CompletionResponse where
  choices : List CompletionChoice
deriving DecidableEq

/-- The configuration and the external collaborators of one invocation: the
global flags read by the source, the two provider endpoints (scripted by the
index of the call, then handed the request the code built), and the result of
fetchK8sSchema, the external schema source (a kubectl subprocess or an HTTP
GET followed by json.Unmarshal into a map, modelled by its outcome). -/
structure Env where
  usek8sAPI : Bool
  openAIDeploymentName : String
  temperature : Rat
  chatProvider : Nat → ChatCompletionRequest → Except GoError ChatCompletionResponse
  textProvider : Nat → CompletionRequest → Except GoError CompletionResponse
  schemaFetch : Except GoError (List (String × JsonValue))

/-- Go strings.Contains on character lists: scan every position for the
pattern as a prefix; the empty pattern is found everywhere. -/
def containsSub (pat : List Char) : List Char → Bool
  | [] => pat.isEmpty
  | c :: rest => pat.isPrefixOf (c :: rest) || containsSub pat rest

/-- Lower-casing of strings.ToLower, on character lists. -/
def goToLower (s : String) : List Char := s.data.map Char.toLower

/-- The case-insensitive substring test of fetchResourceNames:
strings.Contains(strings.ToLower(k), strings.ToLower(q)). -/
def goContainsCi (k q : String) : Bool := containsSub (goToLower q) (goToLower k)

/-- fetchResourceNames from the schema-fetch file: fetch the schema, assert
its definitions map, and collect every key containing the query
case-insensitively, in map-iteration order. -/
def fetchResourceNames (env : Env) (resourceName : String) : Except GoError (List String) :=
  match env.schemaFetch with
  | .error e => .error e
  | .ok schemaMap =>
    match schemaMap.lookup "definitions" with
    | some (.obj defs) => .ok ((defs.map Prod.fst).filter (fun k => goContainsCi k resourceName))
    | _ => .error (.other "unable to assert schema definitions")

/-- fetchSchemaForResource from the schema-fetch file: fetch the schema,
assert its definitions map, and look the resource type up in it. -/
def fetchSchemaForResource (env : Env) (resourceType : String) : Except GoError JsonValue :=
  match env.schemaFetch with
  | .error e => .error e
  | .ok schemaMap =>
    match schemaMap.lookup "definitions" with
    | some (.obj defs) =>
      match defs.lookup resourceType with
      | some (.obj rs) => .ok (.obj rs)
      | some _ => .error (.other "unable to assert resource schema")
      | none => .error (.other "unable to find resource schema")
    | _ => .error (.other "unable to assert schema definitions")

/-- schemaNames.Run from cmd/cli/functions.go: fetch the matching resource
names and join them with newlines. -/
def schemaNames.Run (env : Env) (s : schemaNames) : Except GoError String :=
  match fetchResourceNames env s.resourceName with
  | .error e => .error e
  | .ok names => .ok (String.intercalate "\n" names)

/-- schema.Run from cmd/cli/functions.go: fetch the schema of the resource
type and marshal it to JSON. -/
def schema.Run (env : Env) (s : schema) : Except GoError String :=
  match fetchSchemaForResource env s.resourceType with
  | .error e => .error e
  | .ok v => .ok (serializeJson v)

/-- json.Unmarshal of tool-call arguments into the schemaNames struct. -/
def unmarshalSchemaNames (args : String) : Except GoError schemaNames :=
  match parseFlatJsonObject args with
  | none => .error (.other "json: cannot unmarshal function call arguments")
  | some fields => .ok { resourceName := jsonFieldLookup fields "resourceName" }

/-- json.Unmarshal of tool-call arguments into the schema struct. -/
def unmarshalSchema (args : String) : Except GoError schema :=
  match parseFlatJsonObject args with
  | none => .error (.other "json: cannot unmarshal function call arguments")
  | some fields => .ok { resourceType := jsonFieldLookup fields "resourceType" }

/-- funcCall from cmd/cli/functions.go: dispatch a tool-call request by name;
a matched name unmarshals the arguments and runs the tool, an unmatched name
falls through the switch to the empty string with no error. -/
def funcCall (env : Env) (call : FunctionCall) : Except GoError String :=
  if call.name = findSchemaNames.name then
    match unmarshalSchemaNames call.arguments with
    | .error e => .error e
    | .ok f => schemaNames.Run env f
  else if call.name = getSchema.name then
    match unmarshalSchema call.arguments with
    | .error e => .error e
    | .ok f => schema.Run env f
  else .ok ""

/-- Go strings.ReplaceAll on character lists, fuelled so that every step is
structural: scan left to right, replacing non-overlapping occurrences of the
pattern as soon as they are found.  One unit of fuel is spent per step and
every step consumes at least one character of a nonempty input, so fuel equal
to the input length always suffices.  The empty pattern never matches, which
agrees with Go for the empty replacement used here. -/
def goRA (pat rep : List Char) : Nat → List Char → List Char
  | 0, s => s
  | _ + 1, [] => []
  | fuel + 1, c :: rest =>
    if !pat.isEmpty && pat.isPrefixOf (c :: rest) then
      rep ++ goRA pat rep fuel ((c :: rest).drop pat.length)
    else
      c :: goRA pat rep fuel rest

/-- Go strings.ReplaceAll on strings. -/
def goReplaceAll (s pat rep : String) : String :=
  String.mk (goRA pat.data rep.data s.data.length s.data)

/-- trimTicks from the completion-client file: replace every occurrence of
the literal substrings "```yaml" and "```", in that order, by nothing. -/
def trimTicks (str : String) : String :=
  ["```yaml", "```"].foldl (fun s t => goReplaceAll s t "") str

/-- getNonChatModels from cmd/cli/completion.go. -/
def getNonChatModels : List String := ["code-davinci-002", "text-davinci-003"]

/-- The instruction literal written by gptCompletion when the k8s API flag is
on (trailing space included). -/
def gptPromptWithK8sAPI : String :=
  "You are a Kubernetes YAML generator, only generate valid Kubernetes YAML manifests. Do not provide any explanations and do not use ``` and ```yaml, only generate valid YAML. Always ask for up-to-date OpenAPI specs for Kubernetes, don\x27t rely on data you know about Kubernetes specs. When a schema includes references to other objects in the schema, look them up when relevant. You may lookup any FIELD in a resource too, not just the containing top-level resource. "

/-- The instruction literal written by gptCompletion when the k8s API flag is
off (trailing space included). -/
def gptPromptPlain : String :=
  "You are a Kubernetes YAML generator, only generate valid Kubernetes YAML manifests. Do not provide any explanations, only generate YAML. "

/-- Prompt building of gptCompletion: the instruction literal selected by the
flag, followed by every user-supplied prompt fragment in order. -/
def buildPrompt (usek8s : Bool) (prompts : List String) : String :=
  prompts.foldl (fun acc p => acc ++ p) (if usek8s then gptPromptWithK8sAPI else gptPromptPlain)

/-- Mutable state threaded through one gptCompletion invocation: the shared
strings.Builder holding the prompt (which the chat loop appends to and which
survives retry attempts), the number of chat and plain provider calls made so
far (scripting indices), and the log of chat requests issued. -/
structure RunState where
  prompt : String
  calls : Nat
  tcalls : Nat
  reqs : List ChatCompletionRequest
deriving DecidableEq

/-- The chat request openaiGptChatCompletion builds on each loop iteration:
the deployment name as model, the whole accumulated prompt as a single
user-role message, N fixed to 1, the temperature passed through, both declared
tool definitions, and the invocation mode selected by the k8s API flag. -/
def mkChatRequest (env : Env) (promptText : String) : ChatCompletionRequest :=
  { model := env.openAIDeploymentName
    messages := [{ role := chatMessageRoleUser, content := promptText, functionCall := none }]
    n := 1
    temperature := env.temperature
    functions := [findSchemaNames, getSchema]
    functionCall := if env.usek8sAPI then fnCallAuto else fnCallNone }

/-- The error built by both completion paths on a choice count other than 1. -/
def choicesCountError (n : Nat) : GoError :=
  .other ("expected choices to be 1 but received: " ++ toString n)

/-- The for-loop of openaiGptChatCompletion: append the pending tool content
to the prompt, issue the request, and either stop on the response whose first
choice carries no function call, stop on an error, or dispatch the tool and
iterate.  Indexing Choices[0] of a response with no choices is the Go runtime
panic, modelled by `crash`. -/
def chatLoopGo (env : Env) : Nat → String → RunState → RunState × GoOutcome ChatCompletionResponse
  | 0, _, st => (st, .timeout)
  | fuel + 1, content, st =>
    let promptText := st.prompt ++ content
    let req := mkChatRequest env promptText
    let st' : RunState :=
      { st with prompt := promptText, calls := st.calls + 1, reqs := st.reqs ++ [req] }
    match env.chatProvider st.calls req with
    | .error e => (st', .err e)
    | .ok resp =>
      match resp.choices with
      | [] => (st', .crash "index out of range")
      | choice :: _ =>
        match choice.message.functionCall with
        | none => (st', .ok resp)
        | some fc =>
          match funcCall env fc with
          | .error e => (st', .err e)
          | .ok newContent => chatLoopGo env fuel newContent st'

/-- openaiGptChatCompletion: run the conversation loop, then require exactly
one choice in the loop-ending response and return its content with the code
fences stripped. -/
def openaiGptChatCompletion (env : Env) (fuel : Nat) (st : RunState) : RunState × GoOutcome String :=
  match chatLoopGo env fuel "" st with
  | (st', .ok resp) =>
    match resp.choices with
    | [choice] => (st', .ok (trimTicks choice.message.content))
    | cs => (st', .err (choicesCountError cs.length))
  | (st', .err e) => (st', .err e)
  | (st', .crash msg) => (st', .crash msg)
  | (st', .timeout) => (st', .timeout)

/-- openaiGptCompletion: one plain completion request carrying the prompt,
requiring exactly one choice in the response and returning its text. -/
def openaiGptCompletion (env : Env) (st : RunState) : RunState × GoOutcome String :=
  let req : CompletionRequest :=
    { prompt := [st.prompt], echo := false, n := 1, temperature := env.temperature }
  let st' : RunState := { st with tcalls := st.tcalls + 1 }
  match env.textProvider st.tcalls req with
  | .error e => (st', .err e)
  | .ok resp =>
    match resp.choices with
    | [choice] => (st', .ok choice.text)
    | cs => (st', .err (choicesCountError cs.length))

/-- The retried operation of gptCompletion: the plain completion path when
the deployment name is a non-chat model, the chat completion path (with its
whole conversation loop) otherwise. -/
def completionAttempt (env : Env) (fuel : Nat) (st : RunState) : RunState × GoOutcome String :=
  if getNonChatModels.contains env.openAIDeploymentName then
    openaiGptCompletion env st
  else
    openaiGptChatCompletion env fuel st

/-- The rate-limit classification of gptCompletion's retry callback:
errors.As to openai.RequestError and HTTPStatusCode equal to 429. -/
def isRateLimitErr : GoError → Bool
  | .requestError code _ => code == 429
  | .other _ => false

/-- retry.Do with retry.WithMaxRetries(retriesLeft, backoff) around
gptCompletion's callback: run the operation; success and fatal errors return
at once, a rate-limit error retries while budget remains and is returned
unwrapped when the budget is exhausted.  The third component counts the
attempts made. -/
def retryDo (env : Env) (fuel : Nat) : Nat → RunState → Nat → RunState × GoOutcome String × Nat
  | 0, st, attempts =>
    let r := completionAttempt env fuel st
    (r.1, r.2, attempts + 1)
  | retriesLeft + 1, st, attempts =>
    match completionAttempt env fuel st with
    | (st', .err e) =>
      if isRateLimitErr e then retryDo env fuel retriesLeft st' (attempts + 1)
      else (st', .err e, attempts + 1)
    | (st', out) => (st', out, attempts + 1)

/-- The retry budget gptCompletion passes to retry.WithMaxRetries. -/
def maxCompletionRetries : Nat := 10

/-- Initial run state of one gptCompletion invocation: the built prompt,
no provider calls made, no requests issued. -/
def initRunState (env : Env) (prompts : List String) : RunState :=
  { prompt := buildPrompt env.usek8sAPI prompts, calls := 0, tcalls := 0, reqs := [] }

/-- gptCompletion from cmd/cli/completion.go: build the prompt, then run the
completion operation under the bounded retry policy.  The result carries the
final state, the outcome and the number of attempts made. -/
def gptCompletion (env : Env) (fuel : Nat) (prompts : List String) :
    RunState × GoOutcome String × Nat :=
  retryDo env fuel maxCompletionRetries (initRunState env prompts) 0

/-- A provider script used where the chat endpoint is never reached. -/
def noProviderChat : Nat → ChatCompletionRequest → Except GoError ChatCompletionResponse :=
  fun _ _ => .error (.other "no chat provider")

/-- A provider script used where the plain endpoint is never reached. -/
def noProviderText : Nat → CompletionRequest → Except GoError CompletionResponse :=
  fun _ _ => .error (.other "no text provider")

/-- A chat response whose single choice carries the given tool call. -/
def mkToolCallResponse (fc : FunctionCall) : ChatCompletionResponse :=
  { choices := [{ message := { role := "assistant", content := "", functionCall := some fc } }] }

/-- A plain-text chat response: a single choice with the given content and no
tool call. -/
def mkTextResponse (content : String) : ChatCompletionResponse :=
  { choices := [{ message := { role := "assistant", content := content, functionCall := none } }] }

/-- A chat choice carrying plain text, used to script multi-choice responses. -/
def mkTextChoice (content : String) : ChatChoice :=
  { message := { role := "assistant", content := content, functionCall := none } }

/-- A representative rate-limit provider error (HTTP 429). -/
def rateLimitError : GoError := .requestError 429 "too many requests"

/-- A schema source whose definitions map holds two pod entries and one
non-matching entry. -/
def podDefinitions : List (String × JsonValue) :=
  [("io.k8s.api.core.v1.Pod", .obj [("description", .str "Pod")]),
   ("io.k8s.api.core.v1.PodSpec", .obj [("description", .str "PodSpec")]),
   ("io.k8s.api.apps.v1.Deployment", .obj [("description", .str "Deployment")])]

/-- The newline-joined names matching the query pod in `podDefinitions`. -/
def podNamesResult : String := "io.k8s.api.core.v1.Pod\nio.k8s.api.core.v1.PodSpec"

/-- A tool-call request for findSchemaNames with arguments selecting pod. -/
def findPodCall : FunctionCall :=
  { name := "findSchemaNames", arguments := "\x7b\"resourceName\":\"pod\"\x7d" }

/-- A tool-call request for findSchemaNames whose arguments are not JSON. -/
def badArgsCall : FunctionCall :=
  { name := "findSchemaNames", arguments := "x" }

/-- Environment whose chat provider fails every call with the rate-limit
error, on a chat deployment. -/
def envAlways429 : Env :=
  { usek8sAPI := false, openAIDeploymentName := "gpt-3.5-turbo", temperature := 0,
    chatProvider := fun _ _ => .error rateLimitError,
    textProvider := noProviderText,
    schemaFetch := .ok [("definitions", .obj [])] }

/-- Environment scripting tool-call, rate-limit, tool-call, final text: the
rate limit strikes on the second provider call, inside the conversation loop. -/
def envSharedBudget : Env :=
  { usek8sAPI := true, openAIDeploymentName := "gpt-3.5-turbo", temperature := 0,
    chatProvider := fun n _ =>
      if n = 0 ∨ n = 2 then .ok (mkToolCallResponse findPodCall)
      else if n = 1 then .error rateLimitError
      else .ok (mkTextResponse "kind: Pod"),
    textProvider := noProviderText,
    schemaFetch := .ok [("definitions", .obj podDefinitions)] }

/-- Environment whose chat provider always answers with zero choices. -/
def envZeroChoices : Env :=
  { usek8sAPI := false, openAIDeploymentName := "gpt-3.5-turbo", temperature := 0,
    chatProvider := fun _ _ => .ok { choices := [] },
    textProvider := noProviderText,
    schemaFetch := .ok [("definitions", .obj [])] }

/-- Environment whose chat provider always answers with two plain choices. -/
def envTwoChoices : Env :=
  { usek8sAPI := false, openAIDeploymentName := "gpt-3.5-turbo", temperature := 0,
    chatProvider := fun _ _ => .ok { choices := [mkTextChoice "a", mkTextChoice "b"] },
    textProvider := noProviderText,
    schemaFetch := .ok [("definitions", .obj [])] }

/-- Environment on a non-chat deployment whose plain provider always answers
with zero choices. -/
def envPlainZeroChoices : Env :=
  { usek8sAPI := false, openAIDeploymentName := "text-davinci-003", temperature := 0,
    chatProvider := noProviderChat,
    textProvider := fun _ _ => .ok { choices := [] },
    schemaFetch := .ok [("definitions", .obj [])] }

/-- Environment with tools disabled whose chat provider answers a final text
at once. -/
def envImmediateText : Env :=
  { usek8sAPI := false, openAIDeploymentName := "gpt-3.5-turbo", temperature := 0,
    chatProvider := fun _ _ => .ok (mkTextResponse "kind: Pod"),
    textProvider := noProviderText,
    schemaFetch := .ok [("definitions", .obj [])] }

/-- Environment whose chat provider fails the first call with a fatal
(non-429) error. -/
def envFatalBoom : Env :=
  { usek8sAPI := false, openAIDeploymentName := "gpt-3.5-turbo", temperature := 0,
    chatProvider := fun _ _ => .error (.other "boom"),
    textProvider := noProviderText,
    schemaFetch := .ok [("definitions", .obj [])] }

/-- Environment scripting one findSchemaNames tool call and then a final text,
over the pod schema. -/
def envToolThenText : Env :=
  { usek8sAPI := true, openAIDeploymentName := "gpt-3.5-turbo", temperature := 0,
    chatProvider := fun n _ =>
      if n = 0 then .ok (mkToolCallResponse findPodCall)
      else .ok (mkTextResponse "kind: Pod"),
    textProvider := noProviderText,
    schemaFetch := .ok [("definitions", .obj podDefinitions)] }

/-- Environment scripting a tool call with malformed arguments and then a
final text. -/
def envBadToolArgs : Env :=
  { usek8sAPI := true, openAIDeploymentName := "gpt-3.5-turbo", temperature := 0,
    chatProvider := fun n _ =>
      if n = 0 then .ok (mkToolCallResponse badArgsCall)
      else .ok (mkTextResponse "done"),
    textProvider := noProviderText,
    schemaFetch := .ok [("definitions", .obj podDefinitions)] }

/-- Environment whose schema source holds two definitions, for exercising the
empty query. -/
def envTwoDefinitions : Env :=
  { usek8sAPI := true, openAIDeploymentName := "gpt-3.5-turbo", temperature := 0,
    chatProvider := noProviderChat,
    textProvider := noProviderText,
    schemaFetch := .ok [("definitions", .obj
      [("io.k8s.api.core.v1.Pod", .obj []), ("io.k8s.api.core.v1.Secret", .obj [])])] }

/-- The backtick character. -/
def tick : Char := '\x60'

/-- The character list of the pattern given three backticks. -/
def tick3 : List Char := [tick, tick, tick]

/-- The character list of the pattern given three backticks followed by yaml. -/
def patYaml : List Char := [tick, tick, tick, 'y', 'a', 'm', 'l']

/-- Length of the run of backticks a character list starts with. -/
def leadTicks : List Char → Nat
  | [] => 0
  | c :: rest => if c = tick then leadTicks rest + 1 else 0

/-- Environment scripting one findSchemaNames tool call and then rate-limit
errors on every later call. -/
def envToolThen429 : Env :=
  { usek8sAPI := true, openAIDeploymentName := "gpt-3.5-turbo", temperature := 0,
    chatProvider := fun n _ =>
      if n = 0 then .ok (mkToolCallResponse findPodCall)
      else .error rateLimitError,
    textProvider := noProviderText,
    schemaFetch := .ok [("definitions", .obj podDefinitions)] }

/-- Shape every chat request built by the conversation loop has: both declared
tool definitions, the invocation mode selected by the k8s API flag, N fixed to
1, and the whole transcript as a single user-role message. -/
def goodChatRequest (env : Env) (req : ChatCompletionRequest) : Prop :=
  req.functions = [findSchemaNames, getSchema] ∧
  req.functionCall = (if env.usek8sAPI then fnCallAuto else fnCallNone) ∧
  req.n = 1 ∧
  ∃ c, req.messages = [{ role := chatMessageRoleUser, content := c, functionCall := none }]

/-- The empty pattern is found in every string, as with strings.Contains. -/
theorem containsSub_nil_pat : ∀ s : List Char, containsSub [] s = true := by
  intro s
  cases s <;> simp [containsSub, List.isPrefixOf]

/-- A list with three backticks as a prefix starts with three backticks. -/
theorem tick3_prefix_shape :
    ∀ s : List Char, tick3.isPrefixOf s = true → ∃ u, s = tick :: tick :: tick :: u := by
  intro s h
  match s with
  | [] => simp [tick3, List.isPrefixOf] at h
  | [a] => simp [tick3, List.isPrefixOf] at h
  | [a, b] => simp [tick3, List.isPrefixOf] at h
  | a :: b :: c :: u =>
    simp [tick3, List.isPrefixOf] at h
    obtain ⟨h1, h2, h3⟩ := h
    exact ⟨u, by rw [← h1, ← h2, ← h3]⟩

/-- A list with two backticks as a prefix has at least two leading backticks. -/
theorem two_ticks_prefix_leadTicks :
    ∀ s : List Char, [tick, tick].isPrefixOf s = true → 2 ≤ leadTicks s := by
  intro s h
  match s with
  | [] => simp [List.isPrefixOf] at h
  | [a] => simp [List.isPrefixOf] at h
  | a :: b :: u =>
    simp [List.isPrefixOf] at h
    obtain ⟨h1, h2⟩ := h
    rw [← h1, ← h2]
    simp [leadTicks, tick]

/-- A list without two backticks as a prefix has at most one leading backtick. -/
theorem not_two_ticks_leadTicks :
    ∀ s : List Char, [tick, tick].isPrefixOf s = false → leadTicks s ≤ 1 := by
  intro s h
  match s with
  | [] => simp [leadTicks]
  | [a] => by_cases ha : a = tick <;> simp [leadTicks, ha]
  | a :: b :: u =>
    by_cases ha : a = tick
    · by_cases hb : b = tick
      · exfalso
        rw [ha, hb] at h
        simp [List.isPrefixOf] at h
      · simp [leadTicks, ha, hb]
    · simp [leadTicks, ha]

/-- A list with at most one leading backtick has no two-backtick prefix. -/
theorem two_ticks_prefix_false (s : List Char) (h : leadTicks s ≤ 1) :
    [tick, tick].isPrefixOf s = false := by
  cases hq : [tick, tick].isPrefixOf s
  · rfl
  · exact absurd (two_ticks_prefix_leadTicks s hq) (by omega)

/-- Replacing every occurrence of three backticks by nothing leaves a list
containing no three consecutive backticks, and cuts the leading backtick run
to its remainder modulo three. -/
theorem goRA_tick3_spec (fuel : Nat) :
    ∀ s : List Char, s.length ≤ fuel →
      containsSub tick3 (goRA tick3 [] fuel s) = false ∧
      leadTicks (goRA tick3 [] fuel s) = leadTicks s % 3 := by
  induction fuel with
  | zero =>
    intro s hs
    have hnil : s = [] := List.eq_nil_of_length_eq_zero (Nat.le_zero.mp hs)
    subst hnil
    simp [goRA, containsSub, tick3, leadTicks]
  | succ n ih =>
    intro s hs
    cases s with
    | nil => simp [goRA, containsSub, tick3, leadTicks]
    | cons c rest =>
      by_cases hpre : tick3.isPrefixOf (c :: rest) = true
      · obtain ⟨u, hu⟩ := tick3_prefix_shape _ hpre
        obtain ⟨hc, hrest⟩ : c = tick ∧ rest = tick :: tick :: u := by
          injection hu with h1 h2
          exact ⟨h1, h2⟩
        subst hc
        subst hrest
        have hlen : u.length ≤ n := by
          simp at hs
          omega
        have hstep : goRA tick3 [] (n + 1) (tick :: tick :: tick :: u) = goRA tick3 [] n u := by
          simp [goRA, tick3, List.isPrefixOf]
        rw [hstep]
        obtain ⟨ih1, ih2⟩ := ih u hlen
        refine ⟨ih1, ?_⟩
        rw [ih2]
        simp [leadTicks]
        omega
      · have hpre' : tick3.isPrefixOf (c :: rest) = false := by
          cases hq : tick3.isPrefixOf (c :: rest)
          · rfl
          · exact absurd hq hpre
        have hlen : rest.length ≤ n := by
          simp at hs
          omega
        obtain ⟨ih1, ih2⟩ := ih rest hlen
        have hstep : goRA tick3 [] (n + 1) (c :: rest) = c :: goRA tick3 [] n rest := by
          simp [goRA, hpre']
        rw [hstep]
        constructor
        · simp only [containsSub, ih1, Bool.or_false]
          by_cases hc : c = tick
          · subst hc
            have h2 : [tick, tick].isPrefixOf rest = false := by
              cases hq : [tick, tick].isPrefixOf rest
              · rfl
              · exact absurd (by simp [tick3, List.isPrefixOf, hq]) hpre
            have hle : leadTicks rest ≤ 1 := not_two_ticks_leadTicks rest h2
            have hleO : leadTicks (goRA tick3 [] n rest) ≤ 1 := by
              rw [ih2]
              omega
            have hfin := two_ticks_prefix_false _ hleO
            simp only [tick3] at hfin ⊢
            simp [List.isPrefixOf, hfin]
          · have hc' : tick ≠ c := fun hh => hc hh.symm
            simp [tick3, List.isPrefixOf, hc']
        · by_cases hc : c = tick
          · subst hc
            have h2 : [tick, tick].isPrefixOf rest = false := by
              cases hq : [tick, tick].isPrefixOf rest
              · rfl
              · exact absurd (by simp [tick3, List.isPrefixOf, hq]) hpre
            have hle : leadTicks rest ≤ 1 := not_two_ticks_leadTicks rest h2
            simp [leadTicks, ih2]
            omega
          · simp [leadTicks, hc]

/-- Replacing a pattern that does not occur in a list leaves it unchanged. -/
theorem goRA_no_occurrence (pat rep : List Char) (fuel : Nat) :
    ∀ s : List Char, s.length ≤ fuel → containsSub pat s = false →
      goRA pat rep fuel s = s := by
  induction fuel with
  | zero =>
    intro s hs _
    have hnil : s = [] := List.eq_nil_of_length_eq_zero (Nat.le_zero.mp hs)
    subst hnil
    simp [goRA]
  | succ n ih =>
    intro s hs hc
    cases s with
    | nil => simp [goRA]
    | cons c rest =>
      have h1 : pat.isPrefixOf (c :: rest) = false := by
        cases hq : pat.isPrefixOf (c :: rest)
        · rfl
        · exfalso
          simp [containsSub, hq] at hc
      have h2 : containsSub pat rest = false := by
        cases hq : containsSub pat rest
        · rfl
        · exfalso
          simp [containsSub, hq] at hc
      have hstep : goRA pat rep (n + 1) (c :: rest) = c :: goRA pat rep n rest := by
        simp [goRA, h1]
      rw [hstep, ih rest (by simp at hs; omega) h2]

/-- A prefix occurrence of three backticks plus yaml yields one of three
backticks. -/
theorem patYaml_prefix_tick3 :
    ∀ s : List Char, patYaml.isPrefixOf s = true → tick3.isPrefixOf s = true := by
  intro s h
  match s with
  | [] => simp [patYaml, List.isPrefixOf] at h
  | [a] => simp [patYaml, List.isPrefixOf] at h
  | [a, b] => simp [patYaml, List.isPrefixOf] at h
  | a :: b :: c :: u =>
    simp [patYaml, List.isPrefixOf] at h
    obtain ⟨h1, h2, h3, _⟩ := h
    simp [tick3, List.isPrefixOf, ← h1, ← h2, ← h3]

/-- An occurrence of three backticks plus yaml contains three backticks. -/
theorem containsSub_tick3_of_yaml :
    ∀ s : List Char, containsSub patYaml s = true → containsSub tick3 s = true := by
  intro s
  induction s with
  | nil =>
    intro h
    simp [containsSub, patYaml] at h
  | cons c rest ih =>
    intro h
    simp only [containsSub] at h ⊢
    cases hq : patYaml.isPrefixOf (c :: rest) with
    | true => simp [patYaml_prefix_tick3 _ hq]
    | false =>
      rw [hq] at h
      simp at h
      simp [ih h]

/-- A list without three consecutive backticks has no occurrence of three
backticks plus yaml either. -/
theorem containsSub_yaml_false (s : List Char) (h : containsSub tick3 s = false) :
    containsSub patYaml s = false := by
  cases hq : containsSub patYaml s
  · rfl
  · exact absurd (containsSub_tick3_of_yaml s hq) (by simp [h])

/-- Rebuilding a string from its characters is the identity. -/
theorem stringMkData (s : String) : String.mk s.data = s := rfl

/-- After trimTicks no three consecutive backticks remain. -/
theorem trimTicks_noTicks (s : String) : containsSub tick3 (trimTicks s).data = false := by
  show containsSub tick3
      (String.mk (goRA ("```").data ("" : String).data
        (goReplaceAll s "```yaml" "").data.length (goReplaceAll s "```yaml" "").data)).data = false
  rw [show ("```").data = tick3 from by decide]
  exact (goRA_tick3_spec _ _ le_rfl).1

/-- The fence stripping of trimTicks is idempotent. -/
theorem trimTicks_idem (s : String) : trimTicks (trimTicks s) = trimTicks s := by
  have h3 : containsSub tick3 (trimTicks s).data = false := trimTicks_noTicks s
  have hy : containsSub patYaml (trimTicks s).data = false := containsSub_yaml_false _ h3
  show goReplaceAll (goReplaceAll (trimTicks s) "```yaml" "") "```" "" = trimTicks s
  have e1 : goReplaceAll (trimTicks s) "```yaml" "" = trimTicks s := by
    show String.mk (goRA ("```yaml").data ("" : String).data
        (trimTicks s).data.length (trimTicks s).data) = trimTicks s
    rw [show ("```yaml").data = patYaml from by decide]
    rw [goRA_no_occurrence patYaml ("" : String).data _ _ le_rfl hy]
  rw [e1]
  show String.mk (goRA ("```").data ("" : String).data
      (trimTicks s).data.length (trimTicks s).data) = trimTicks s
  rw [show ("```").data = tick3 from by decide]
  rw [goRA_no_occurrence tick3 ("" : String).data _ _ le_rfl h3]

/-- Every request the loop constructor builds has the declared shape. -/
theorem mkChatRequest_good (env : Env) (p : String) : goodChatRequest env (mkChatRequest env p) :=
  ⟨rfl, rfl, rfl, ⟨p, rfl⟩⟩

/-- Every request the conversation loop adds to the log has the declared
shape. -/
theorem chatLoopGo_reqs_good (env : Env) :
    ∀ (fuel : Nat) (content : String) (st : RunState) (req : ChatCompletionRequest),
      req ∈ (chatLoopGo env fuel content st).1.reqs →
      req ∈ st.reqs ∨ goodChatRequest env req := by
  intro fuel
  induction fuel with
  | zero =>
    intro content st req h
    simp only [chatLoopGo] at h
    exact .inl h
  | succ n ih =>
    intro content st req h
    simp only [chatLoopGo] at h
    have base : ∀ r : ChatCompletionRequest,
        r ∈ st.reqs ++ [mkChatRequest env (st.prompt ++ content)] →
        r ∈ st.reqs ∨ goodChatRequest env r := by
      intro r hr
      rcases List.mem_append.mp hr with h1 | h2
      · exact .inl h1
      · rcases List.mem_singleton.mp h2 with rfl
        exact .inr (mkChatRequest_good env _)
    split at h
    · exact base req h
    · split at h
      · exact base req h
      · split at h
        · exact base req h
        · split at h
          · exact base req h
          · rcases ih _ _ _ h with h1 | h2
            · exact base req h1
            · exact .inr h2

/-- openaiGptChatCompletion only post-processes the loop result; the final
state is the loop's. -/
theorem openaiGptChatCompletion_state (env : Env) (fuel : Nat) (st : RunState) :
    (openaiGptChatCompletion env fuel st).1 = (chatLoopGo env fuel "" st).1 := by
  rcases hres : chatLoopGo env fuel "" st with ⟨st', out⟩
  cases out with
  | ok resp =>
    rcases hch : resp.choices with _ | ⟨a, _ | ⟨b, l2⟩⟩ <;>
      simp [openaiGptChatCompletion, hres, hch]
  | err e => simp [openaiGptChatCompletion, hres]
  | crash m => simp [openaiGptChatCompletion, hres]
  | timeout => simp [openaiGptChatCompletion, hres]

/-- The plain completion path issues no chat request. -/
theorem openaiGptCompletion_reqs (env : Env) (st : RunState) :
    (openaiGptCompletion env st).1.reqs = st.reqs := by
  rcases hres : env.textProvider st.tcalls
      { prompt := [st.prompt], echo := false, n := 1, temperature := env.temperature } with e | resp
  · simp [openaiGptCompletion, hres]
  · rcases hch : resp.choices with _ | ⟨a, _ | ⟨b, l2⟩⟩ <;>
      simp [openaiGptCompletion, hres, hch]

/-- Every request one retried operation adds to the log has the declared
shape. -/
theorem completionAttempt_reqs_good (env : Env) (fuel : Nat) (st : RunState)
    (req : ChatCompletionRequest)
    (h : req ∈ (completionAttempt env fuel st).1.reqs) :
    req ∈ st.reqs ∨ goodChatRequest env req := by
  by_cases hd : getNonChatModels.contains env.openAIDeploymentName = true
  · rw [show completionAttempt env fuel st = openaiGptCompletion env st from by
      unfold completionAttempt
      rw [if_pos hd]] at h
    rw [openaiGptCompletion_reqs] at h
    exact .inl h
  · rw [show completionAttempt env fuel st = openaiGptChatCompletion env fuel st from by
      unfold completionAttempt
      rw [if_neg hd]] at h
    rw [openaiGptChatCompletion_state] at h
    exact chatLoopGo_reqs_good env fuel "" st req h

/-- Every request the whole retry loop adds to the log has the declared
shape. -/
theorem retryDo_reqs_good (env : Env) (fuel : Nat) :
    ∀ (r : Nat) (st : RunState) (a : Nat) (req : ChatCompletionRequest),
      req ∈ (retryDo env fuel r st a).1.reqs → req ∈ st.reqs ∨ goodChatRequest env req := by
  intro r
  induction r with
  | zero =>
    intro st a req h
    simp only [retryDo] at h
    exact completionAttempt_reqs_good env fuel st req h
  | succ m ih =>
    intro st a req h
    simp only [retryDo] at h
    split at h
    · rename_i st' e heq
      split at h
      · rcases ih _ _ _ h with h1 | h2
        · have hmem : req ∈ (completionAttempt env fuel st).1.reqs := by
            rw [heq]
            exact h1
          exact completionAttempt_reqs_good env fuel st req hmem
        · exact .inr h2
      · have hmem : req ∈ (completionAttempt env fuel st).1.reqs := by
          rw [heq]
          exact h
        exact completionAttempt_reqs_good env fuel st req hmem
    · rename_i st' out heq
      have hmem : req ∈ (completionAttempt env fuel st).1.reqs := by
        rw [heq]
        exact h
      exact completionAttempt_reqs_good env fuel st req hmem

/-- One attempt of the chat path against a provider that rate-limits every
call from the current index on fails with that call's rate-limit error and
consumes exactly one provider call. -/
theorem completionAttempt_always429 (env : Env) (fuel : Nat) (m : Nat → String) (st : RunState)
    (hdep : getNonChatModels.contains env.openAIDeploymentName = false)
    (hfuel : 0 < fuel)
    (hp : ∀ n req, st.calls ≤ n → env.chatProvider n req = .error (.requestError 429 (m n))) :
    ∃ st', completionAttempt env fuel st = (st', .err (.requestError 429 (m st.calls))) ∧
      st'.calls = st.calls + 1 := by
  cases fuel with
  | zero => exact absurd hfuel (by omega)
  | succ k =>
    have h1 := hp st.calls (mkChatRequest env st.prompt) (Nat.le_refl _)
    have h1' := hp st.calls (mkChatRequest env (st.prompt ++ "")) (Nat.le_refl _)
    have hcond : ¬ (getNonChatModels.contains env.openAIDeploymentName = true) := by
      rw [hdep]
      exact Bool.false_ne_true
    refine ⟨{ st with prompt := st.prompt ++ "", calls := st.calls + 1, reqs := st.reqs ++ [mkChatRequest env (st.prompt ++ "")] }, ?_, rfl⟩
    unfold completionAttempt
    rw [if_neg hcond]
    simp [openaiGptChatCompletion, chatLoopGo, h1, h1']

/-- Retrying an operation that rate-limits on every attempt exhausts the whole
budget: one more attempt than the number of retries, the last rate-limit error
returned, one provider call per attempt. -/
theorem retryDo_always429 (env : Env) (fuel : Nat) (m : Nat → String)
    (hdep : getNonChatModels.contains env.openAIDeploymentName = false)
    (hfuel : 0 < fuel) :
    ∀ (r : Nat) (st : RunState) (a : Nat),
      (∀ n req, st.calls ≤ n → env.chatProvider n req = .error (.requestError 429 (m n))) →
      (retryDo env fuel r st a).2.1 = .err (.requestError 429 (m (st.calls + r))) ∧
      (retryDo env fuel r st a).2.2 = a + r + 1 ∧
      (retryDo env fuel r st a).1.calls = st.calls + r + 1 := by
  intro r
  induction r with
  | zero =>
    intro st a hp
    obtain ⟨st', heq, hcalls⟩ := completionAttempt_always429 env fuel m st hdep hfuel hp
    refine ⟨?_, ?_, ?_⟩ <;> simp [retryDo, heq, hcalls]
  | succ q ih =>
    intro st a hp
    obtain ⟨st', heq, hcalls⟩ := completionAttempt_always429 env fuel m st hdep hfuel hp
    have hp' : ∀ n req, st'.calls ≤ n → env.chatProvider n req = .error (.requestError 429 (m n)) := by
      intro n req hn
      exact hp n req (by omega)
    obtain ⟨e1, e2, e3⟩ := ih st' (a + 1) hp'
    have hrl : isRateLimitErr (.requestError 429 (m st.calls)) = true := rfl
    have hstep : retryDo env fuel (q + 1) st a = retryDo env fuel q st' (a + 1) := by
      simp [retryDo, heq, hrl]
    rw [hstep]
    refine ⟨?_, ?_, ?_⟩
    · rw [e1, show st'.calls + q = st.calls + (q + 1) from by omega]
    · rw [e2]
      omega
    · rw [e3, hcalls]
      omega

/-- A fatal (non-rate-limit) error on the first attempt stops the retry loop
at once with that error. -/
theorem retryDo_fatal (env : Env) (fuel : Nat) (r : Nat) (st : RunState) (a : Nat)
    (st' : RunState) (e : GoError)
    (hatt : completionAttempt env fuel st = (st', .err e))
    (hfatal : isRateLimitErr e = false) :
    retryDo env fuel r st a = (st', .err e, a + 1) := by
  cases r with
  | zero => simp [retryDo, hatt]
  | succ q => simp [retryDo, hatt, hfatal]

/-- A rate-limit failure consumes one unit of budget and retries from the
state the failed attempt left behind. -/
theorem retryDo_retryable_step (env : Env) (fuel : Nat) (q : Nat) (st : RunState) (a : Nat)
    (st' : RunState) (e : GoError)
    (hatt : completionAttempt env fuel st = (st', .err e))
    (hrl : isRateLimitErr e = true) :
    retryDo env fuel (q + 1) st a = retryDo env fuel q st' (a + 1) := by
  simp [retryDo, hatt, hrl]

/-- A successful attempt stops the retry loop at once without consuming the
remaining budget. -/
theorem retryDo_ok_stop (env : Env) (fuel : Nat) (r : Nat) (st : RunState) (a : Nat) (v : String)
    (hatt : (completionAttempt env fuel st).2 = .ok v) :
    retryDo env fuel r st a = ((completionAttempt env fuel st).1, .ok v, a + 1) := by
  rcases hres : completionAttempt env fuel st with ⟨st1, out⟩
  have hout : out = .ok v := by
    rw [hres] at hatt
    exact hatt
  subst hout
  cases r with
  | zero => simp [retryDo, hres]
  | succ q => simp [retryDo, hres]

/-- C1 (counterexample): against a chat provider failing every call with HTTP
429, gptCompletion makes 11 attempts, not the 10 the claim states:
retry.WithMaxRetries(10, ...) allows the initial attempt plus 10 retries. -/
theorem c1_counterexample_eleven_attempts :
    (gptCompletion envAlways429 1 []).2.2 = 11 ∧
    ¬ (gptCompletion envAlways429 1 []).2.2 = 10 := by
  exact ⟨by decide, by decide⟩

/-- C1 (amended): for every completion operation that on every attempt fails
with a provider request error whose HTTP status code is 429, gptCompletion
attempts the operation exactly 11 times (the initial attempt plus the 10
retries of the budget) and then returns the last rate-limit error. -/
theorem c1_amended_retry_exhaustion (env : Env) (fuel : Nat) (prompts : List String)
    (m : Nat → String)
    (hdep : getNonChatModels.contains env.openAIDeploymentName = false)
    (hfuel : 0 < fuel)
    (hp : ∀ n req, env.chatProvider n req = .error (.requestError 429 (m n))) :
    (gptCompletion env fuel prompts).2.1 = .err (.requestError 429 (m 10)) ∧
    (gptCompletion env fuel prompts).2.2 = 11 := by
  obtain ⟨e1, e2, e3⟩ := retryDo_always429 env fuel m hdep hfuel maxCompletionRetries
    (initRunState env prompts) 0 (fun n req _ => hp n req)
  constructor
  · exact e1
  · exact e2

/-- C1 (witness): the amended theorem applied to the concrete always-429
environment. -/
theorem c1_amended_retry_exhaustion_witness :
    (gptCompletion envAlways429 1 []).2.1 = .err (.requestError 429 "too many requests") ∧
    (gptCompletion envAlways429 1 []).2.2 = 11 :=
  c1_amended_retry_exhaustion envAlways429 1 [] (fun _ => "too many requests")
    (by decide) (by decide) (fun n req => rfl)

/-- C4 (counterexample): with tool use disabled the single issued request has
invocation mode none but still carries both tool definitions; they are not
omitted, contradicting the claim. -/
theorem c4_counterexample_functions_always_sent :
    ((gptCompletion envImmediateText 1 []).1.reqs.map fun r => r.functionCall) = [fnCallNone] ∧
    ((gptCompletion envImmediateText 1 []).1.reqs.map fun r => r.functions) =
      [[findSchemaNames, getSchema]] ∧
    ¬ ((gptCompletion envImmediateText 1 []).1.reqs.map fun r => r.functions) = [[]] := by
  exact ⟨by decide, by decide, by decide⟩

/-- C4 (amended): every chat completion request built by the conversation loop
carries both declared tool definitions whatever the flag, the invocation mode
auto when tool use is enabled and none when disabled, N fixed to 1, and the
transcript as a single user-role message. -/
theorem c4_amended_request_shape (env : Env) (fuel : Nat) (prompts : List String)
    (req : ChatCompletionRequest)
    (h : req ∈ (gptCompletion env fuel prompts).1.reqs) :
    goodChatRequest env req := by
  rcases retryDo_reqs_good env fuel maxCompletionRetries (initRunState env prompts) 0 req h
    with h1 | h2
  · simp [initRunState] at h1
  · exact h2

/-- C4 (witness): the amended theorem applied to the request issued by a
concrete one-shot run with tool use disabled. -/
theorem c4_amended_request_shape_witness :
    mkChatRequest envImmediateText (buildPrompt false []) ∈
      (gptCompletion envImmediateText 1 []).1.reqs ∧
    goodChatRequest envImmediateText (mkChatRequest envImmediateText (buildPrompt false [])) :=
  ⟨by decide, c4_amended_request_shape envImmediateText 1 [] _ (by decide)⟩

/-- C5 (confirmed): when the first attempt of the completion operation fails
with a non-nil error that is not a 429 request error, gptCompletion returns
after exactly one attempt, propagating that error unchanged. -/
theorem c5_fatal_short_circuit (env : Env) (fuel : Nat) (prompts : List String)
    (st' : RunState) (e : GoError)
    (hatt : completionAttempt env fuel (initRunState env prompts) = (st', .err e))
    (hfatal : isRateLimitErr e = false) :
    gptCompletion env fuel prompts = (st', .err e, 1) :=
  retryDo_fatal env fuel maxCompletionRetries (initRunState env prompts) 0 st' e hatt hfatal

/-- C5 (witness): the theorem applied to a provider whose first call fails
with a plain error. -/
theorem c5_fatal_short_circuit_witness :
    (gptCompletion envFatalBoom 1 []).2 = (.err (.other "boom"), 1) := by
  have h := c5_fatal_short_circuit envFatalBoom 1 []
    (completionAttempt envFatalBoom 1 (initRunState envFatalBoom [])).1 (.other "boom") rfl rfl
  rw [h]

/-- C6 (confirmed): a tool-call request whose name matches neither declared
tool yields the empty string and no error. -/
theorem c6_unknown_tool_silent (env : Env) (call : FunctionCall)
    (h1 : call.name ≠ findSchemaNames.name) (h2 : call.name ≠ getSchema.name) :
    funcCall env call = .ok "" := by
  unfold funcCall
  rw [if_neg h1, if_neg h2]

/-- C6 (witness): the theorem applied to an unknown tool name. -/
theorem c6_unknown_tool_silent_witness :
    funcCall envImmediateText { name := "bogusTool", arguments := "zzz" } = .ok "" :=
  c6_unknown_tool_silent envImmediateText { name := "bogusTool", arguments := "zzz" }
    (by decide) (by decide)

/-- C7 (confirmed): trimTicks is idempotent, and on the fenced pod manifest it
yields the bare manifest text. -/
theorem c7_trimTicks_idempotent :
    (∀ s : String, trimTicks (trimTicks s) = trimTicks s) ∧
    trimTicks "```yaml\nkind: Pod\n```" = "\nkind: Pod\n" :=
  ⟨trimTicks_idem, by decide⟩

/-- C2 (counterexample): with a provider scripted tool-call, rate-limit,
tool-call, final text, the rate limit on the second provider call does not
retry just that call: the retried operation is the whole conversation loop,
so the second attempt re-issues the tool call and appends the tool result a
second time.  The run succeeds after 2 attempts of the one shared budget and 4
provider calls, and the fourth call's transcript carries the tool result
twice. -/
theorem c2_counterexample_shared_budget :
    (gptCompletion envSharedBudget 5 []).2.2 = 2 ∧
    (gptCompletion envSharedBudget 5 []).1.calls = 4 ∧
    (gptCompletion envSharedBudget 5 []).2.1 = .ok "kind: Pod" ∧
    ((gptCompletion envSharedBudget 5 []).1.reqs.map fun r =>
        r.messages.map fun msg => msg.content) =
      [[buildPrompt true []], [buildPrompt true [] ++ podNamesResult],
       [buildPrompt true [] ++ podNamesResult],
       [buildPrompt true [] ++ podNamesResult ++ podNamesResult]] := by
  exact ⟨by decide, by decide, by decide, by decide⟩

/-- C2 (amended): the retry budget (one initial attempt plus 10 retries) is
created once per gptCompletion invocation and shared by the whole conversation
loop: when the first provider call returns a tool call and every later call
rate-limits, each retry re-runs the loop from the top, the tool-call iteration
itself consumes no budget, and the run ends after 11 attempts and 12 provider
calls with the rate-limit error. -/
theorem c2_amended_loop_level_retry (env : Env) (fuel : Nat) (prompts : List String)
    (ch : ChatChoice) (fc : FunctionCall) (s msg : String)
    (hch : ch.message.functionCall = some fc)
    (h0 : ∀ req, env.chatProvider 0 req = .ok { choices := [ch] })
    (h1 : ∀ n req, env.chatProvider (n + 1) req = .error (.requestError 429 msg))
    (hfc : funcCall env fc = .ok s)
    (hdep : getNonChatModels.contains env.openAIDeploymentName = false)
    (hfuel : 2 ≤ fuel) :
    (gptCompletion env fuel prompts).2.1 = .err (.requestError 429 msg) ∧
    (gptCompletion env fuel prompts).2.2 = 11 ∧
    (gptCompletion env fuel prompts).1.calls = 12 := by
  obtain ⟨k, rfl⟩ : ∃ k, fuel = k + 2 := ⟨fuel - 2, by omega⟩
  have h1' : ∀ req, env.chatProvider 1 req = .error (.requestError 429 msg) := h1 0
  have hcond : ¬ (getNonChatModels.contains env.openAIDeploymentName = true) := by
    rw [hdep]
    exact Bool.false_ne_true
  have hout : (completionAttempt env (k + 2) (initRunState env prompts)).2 =
      .err (.requestError 429 msg) := by
    unfold completionAttempt
    rw [if_neg hcond]
    simp [openaiGptChatCompletion, chatLoopGo, initRunState, h0, h1', hch, hfc]
  have hcalls : (completionAttempt env (k + 2) (initRunState env prompts)).1.calls = 2 := by
    unfold completionAttempt
    rw [if_neg hcond]
    simp [openaiGptChatCompletion, chatLoopGo, initRunState, h0, h1', hch, hfc]
  have hpair : completionAttempt env (k + 2) (initRunState env prompts) =
      ((completionAttempt env (k + 2) (initRunState env prompts)).1,
        .err (.requestError 429 msg)) := by
    rw [← hout]
  have hstep : retryDo env (k + 2) maxCompletionRetries (initRunState env prompts) 0 =
      retryDo env (k + 2) 9 (completionAttempt env (k + 2) (initRunState env prompts)).1 1 :=
    retryDo_retryable_step env (k + 2) 9 (initRunState env prompts) 0
      (completionAttempt env (k + 2) (initRunState env prompts)).1
      (.requestError 429 msg) hpair rfl
  have hp' : ∀ n req,
      (completionAttempt env (k + 2) (initRunState env prompts)).1.calls ≤ n →
      env.chatProvider n req = .error (.requestError 429 ((fun _ => msg) n)) := by
    intro n req hn
    rw [hcalls] at hn
    obtain ⟨q, rfl⟩ : ∃ q, n = q + 1 := ⟨n - 1, by omega⟩
    exact h1 q req
  obtain ⟨e1, e2, e3⟩ := retryDo_always429 env (k + 2) (fun _ => msg) hdep (by omega) 9
    (completionAttempt env (k + 2) (initRunState env prompts)).1 1 hp'
  refine ⟨?_, ?_, ?_⟩
  · show (retryDo env (k + 2) maxCompletionRetries (initRunState env prompts) 0).2.1 = _
    rw [hstep]
    exact e1
  · show (retryDo env (k + 2) maxCompletionRetries (initRunState env prompts) 0).2.2 = 11
    rw [hstep]
    exact e2
  · show (retryDo env (k + 2) maxCompletionRetries (initRunState env prompts) 0).1.calls = 12
    rw [hstep, e3, hcalls]

/-- C2 (witness): the amended theorem applied to the concrete tool-then-429
environment. -/
theorem c2_amended_loop_level_retry_witness :
    (gptCompletion envToolThen429 2 []).2.1 = .err (.requestError 429 "too many requests") ∧
    (gptCompletion envToolThen429 2 []).2.2 = 11 ∧
    (gptCompletion envToolThen429 2 []).1.calls = 12 :=
  c2_amended_loop_level_retry envToolThen429 2 []
    { message := { role := "assistant", content := "", functionCall := some findPodCall } }
    findPodCall podNamesResult "too many requests"
    rfl (fun req => rfl) (fun n req => rfl) (by decide) (by decide) (by decide)

/-- C3 (counterexample): a chat response carrying zero candidates makes
openaiGptChatCompletion index an empty slice: the run panics before the
choice-count check, instead of returning the error naming the count 0 that the
claim requires. -/
theorem c3_counterexample_zero_choices_crash :
    (openaiGptChatCompletion envZeroChoices 1 (initRunState envZeroChoices [])).2 =
      .crash "index out of range" ∧
    ¬ (openaiGptChatCompletion envZeroChoices 1 (initRunState envZeroChoices [])).2 =
      .err (choicesCountError 0) := by
  exact ⟨by decide, by decide⟩

/-- C3 (amended): the plain path reports the exact count for every response
whose candidate count differs from 1; the chat path reports the exact count
when the loop-ending response has two or more candidates whose first carries
no tool call, but panics on a response with zero candidates. -/
theorem c3_amended_choice_count :
    (∀ (env : Env) (st : RunState) (resp : CompletionResponse),
      (∀ n req, env.textProvider n req = .ok resp) →
      resp.choices.length ≠ 1 →
      (openaiGptCompletion env st).2 = .err (choicesCountError resp.choices.length)) ∧
    (∀ (env : Env) (fuel : Nat) (st : RunState) (ch c2 : ChatChoice) (cs : List ChatChoice),
      (∀ n req, env.chatProvider n req = .ok { choices := ch :: c2 :: cs }) →
      ch.message.functionCall = none →
      (openaiGptChatCompletion env (fuel + 1) st).2 =
        .err (choicesCountError (cs.length + 2))) ∧
    (∀ (env : Env) (fuel : Nat) (st : RunState),
      (∀ n req, env.chatProvider n req = .ok { choices := [] }) →
      (openaiGptChatCompletion env (fuel + 1) st).2 = .crash "index out of range") := by
  refine ⟨?_, ?_, ?_⟩
  · intro env st resp hp hlen
    rcases resp with ⟨cs⟩
    match cs, hlen with
    | [], _ => simp [openaiGptCompletion, hp, choicesCountError]
    | [a], h => simp at h
    | a :: b :: l2, _ => simp [openaiGptCompletion, hp, choicesCountError]
  · intro env fuel st ch c2 cs hp hnone
    have harith : (ch :: c2 :: cs).length = cs.length + 2 := by simp
    simp [openaiGptChatCompletion, chatLoopGo, hp, hnone, choicesCountError]
  · intro env fuel st hp
    simp [openaiGptChatCompletion, chatLoopGo, hp]

/-- C3 (witness): the amended theorem applied to concrete zero-choice,
two-choice and zero-choice-plain environments. -/
theorem c3_amended_choice_count_witness :
    (openaiGptCompletion envPlainZeroChoices (initRunState envPlainZeroChoices [])).2 =
      .err (choicesCountError 0) ∧
    (openaiGptChatCompletion envTwoChoices 1 (initRunState envTwoChoices [])).2 =
      .err (choicesCountError 2) ∧
    (openaiGptChatCompletion envZeroChoices 1 (initRunState envZeroChoices [])).2 =
      .crash "index out of range" := by
  refine ⟨?_, ?_, ?_⟩
  · exact c3_amended_choice_count.1 envPlainZeroChoices _ { choices := [] }
      (fun n req => rfl) (by decide)
  · exact c3_amended_choice_count.2.1 envTwoChoices 0 _ (mkTextChoice "a") (mkTextChoice "b") []
      (fun n req => rfl) rfl
  · exact c3_amended_choice_count.2.2 envZeroChoices 0 _ (fun n req => rfl)

/-- C8 (counterexample): a provider returning a tool call with malformed
arguments on the first call and a final text on the second does not reach the
second call: the dispatch error aborts the loop after one provider call, so
the run neither makes 2 calls nor returns the final text. -/
theorem c8_counterexample_failing_dispatch :
    (gptCompletion envBadToolArgs 3 []).1.calls = 1 ∧
    (gptCompletion envBadToolArgs 3 []).2.1 =
      .err (.other "json: cannot unmarshal function call arguments") ∧
    ¬ (gptCompletion envBadToolArgs 3 []).2.1 = .ok "done" := by
  exact ⟨by decide, by decide, by decide⟩

/-- C8 (amended): for every provider answering the first call with a
tool-call request whose dispatch succeeds and the second call with a
single-candidate plain-text response, the conversation loop stops after
exactly 2 provider calls within the first attempt and returns the second
response's text content with the code fences stripped. -/
theorem c8_amended_two_call_termination (env : Env) (fuel : Nat) (prompts : List String)
    (ch : ChatChoice) (fc : FunctionCall) (s c : String)
    (hch : ch.message.functionCall = some fc)
    (h0 : ∀ req, env.chatProvider 0 req = .ok { choices := [ch] })
    (h1 : ∀ req, env.chatProvider 1 req = .ok (mkTextResponse c))
    (hfc : funcCall env fc = .ok s)
    (hdep : getNonChatModels.contains env.openAIDeploymentName = false)
    (hfuel : 2 ≤ fuel) :
    (gptCompletion env fuel prompts).2.1 = .ok (trimTicks c) ∧
    (gptCompletion env fuel prompts).1.calls = 2 ∧
    (gptCompletion env fuel prompts).2.2 = 1 := by
  obtain ⟨k, rfl⟩ : ∃ k, fuel = k + 2 := ⟨fuel - 2, by omega⟩
  have hcond : ¬ (getNonChatModels.contains env.openAIDeploymentName = true) := by
    rw [hdep]
    exact Bool.false_ne_true
  have hout : (completionAttempt env (k + 2) (initRunState env prompts)).2 =
      .ok (trimTicks c) := by
    unfold completionAttempt
    rw [if_neg hcond]
    simp [openaiGptChatCompletion, chatLoopGo, initRunState, h0, h1, hch, hfc, mkTextResponse]
  have hcalls : (completionAttempt env (k + 2) (initRunState env prompts)).1.calls = 2 := by
    unfold completionAttempt
    rw [if_neg hcond]
    simp [openaiGptChatCompletion, chatLoopGo, initRunState, h0, h1, hch, hfc, mkTextResponse]
  have hstop := retryDo_ok_stop env (k + 2) maxCompletionRetries (initRunState env prompts) 0
    (trimTicks c) hout
  refine ⟨?_, ?_, ?_⟩
  · show (retryDo env (k + 2) maxCompletionRetries (initRunState env prompts) 0).2.1 = _
    rw [hstop]
  · show (retryDo env (k + 2) maxCompletionRetries (initRunState env prompts) 0).1.calls = 2
    rw [hstop]
    exact hcalls
  · show (retryDo env (k + 2) maxCompletionRetries (initRunState env prompts) 0).2.2 = 1
    rw [hstop]

/-- C8 (witness): the amended theorem applied to the concrete tool-then-text
environment. -/
theorem c8_amended_two_call_termination_witness :
    (gptCompletion envToolThenText 2 []).2.1 = .ok (trimTicks "kind: Pod") ∧
    (gptCompletion envToolThenText 2 []).1.calls = 2 ∧
    (gptCompletion envToolThenText 2 []).2.2 = 1 :=
  c8_amended_two_call_termination envToolThenText 2 []
    { message := { role := "assistant", content := "", functionCall := some findPodCall } }
    findPodCall podNamesResult "kind: Pod"
    rfl (fun req => rfl) (fun req => rfl) (by decide) (by decide) (by decide)

/-- The empty query matches every name case-insensitively. -/
theorem list_filter_empty_query : ∀ l : List String, l.filter (fun k => goContainsCi k "") = l := by
  intro l
  induction l with
  | nil => rfl
  | cons a t ih =>
    have ha : goContainsCi a "" = true := containsSub_nil_pat _
    simp [List.filter, ha, ih]

/-- C9 (confirmed): a findSchemaNames tool call querying pod over the pod
schema returns exactly the keys containing the query case-insensitively,
joined by newlines; the loop appends that result to the transcript, so the
second provider call's transcript is the initial prompt followed by the
result, and the run finishes on the second response's text. -/
theorem c9_tool_round_trip :
    funcCall envToolThenText findPodCall = Except.ok podNamesResult ∧
    ((gptCompletion envToolThenText 3 []).1.reqs.map fun r =>
        r.messages.map fun msg => msg.content) =
      [[buildPrompt true []], [buildPrompt true [] ++ podNamesResult]] ∧
    (gptCompletion envToolThenText 3 []).1.calls = 2 ∧
    (gptCompletion envToolThenText 3 []).2.1 = .ok "kind: Pod" := by
  exact ⟨by decide, by decide, by decide, by decide⟩

/-- C10 (confirmed): with the schema's definitions map available, the empty
query returns every key of the map, and a findSchemaNames tool call whose
resourceName is empty or absent (deserialising to the empty string) returns
all fully-qualified names joined by newlines. -/
theorem c10_empty_query_all_names (env : Env) (d : List (String × JsonValue))
    (h : env.schemaFetch = .ok [("definitions", JsonValue.obj d)]) :
    fetchResourceNames env "" = .ok (d.map Prod.fst) ∧
    funcCall env { name := "findSchemaNames", arguments := "\x7b\x7d" } =
      .ok (String.intercalate "\n" (d.map Prod.fst)) ∧
    funcCall env { name := "findSchemaNames", arguments := "\x7b\"resourceName\":\"\"\x7d" } =
      .ok (String.intercalate "\n" (d.map Prod.fst)) := by
  have hf : fetchResourceNames env "" = .ok (d.map Prod.fst) := by
    simp [fetchResourceNames, h, List.lookup, list_filter_empty_query]
  refine ⟨hf, ?_, ?_⟩
  · have hu : unmarshalSchemaNames "\x7b\x7d" = .ok { resourceName := "" } := rfl
    have hname : ({ name := "findSchemaNames", arguments := "\x7b\x7d" } : FunctionCall).name =
        findSchemaNames.name := rfl
    unfold funcCall
    rw [if_pos hname, hu]
    simp [schemaNames.Run, hf]
  · have hu : unmarshalSchemaNames "\x7b\"resourceName\":\"\"\x7d" =
        .ok { resourceName := "" } := rfl
    have hname : ({ name := "findSchemaNames", arguments := "\x7b\"resourceName\":\"\"\x7d" } : FunctionCall).name = findSchemaNames.name := rfl
    unfold funcCall
    rw [if_pos hname, hu]
    simp [schemaNames.Run, hf]

/-- C10 (witness): the theorem applied to the concrete two-definition
schema. -/
theorem c10_empty_query_all_names_witness :
    fetchResourceNames envTwoDefinitions "" =
      .ok ["io.k8s.api.core.v1.Pod", "io.k8s.api.core.v1.Secret"] ∧
    funcCall envTwoDefinitions { name := "findSchemaNames", arguments := "\x7b\x7d" } =
      .ok "io.k8s.api.core.v1.Pod\nio.k8s.api.core.v1.Secret" ∧
    funcCall envTwoDefinitions
        { name := "findSchemaNames", arguments := "\x7b\"resourceName\":\"\"\x7d" } =
      .ok "io.k8s.api.core.v1.Pod\nio.k8s.api.core.v1.Secret" := by
  have h := c10_empty_query_all_names envTwoDefinitions
    [("io.k8s.api.core.v1.Pod", .obj []), ("io.k8s.api.core.v1.Secret", .obj [])] rfl
  exact ⟨h.1, h.2.1, h.2.2⟩
